import Mathlib

/-!
Shallow embedding of the request-shaping and response-normalization logic of
the responses_api repository.

Source files:
- `src/server/openai.ts` : `createResponse`, the request shaper (model/tools
  payload construction, file copy + upload, extension classification).
- `src/server/index.ts` : `handleResponses`, the Express handler (input
  validation and relay), and the browser client's `sendMessage` (request
  building with the client-side fallback prompt and the response reducer).

Side effects (file system, storage upload, completion call) are made explicit:
the file system is a map from path to file bytes, network activity is a trace
of `NetCall` values, and the storage upload outcome is an oracle supplied in
the environment.
-/

namespace RApp

/-! ### String helpers

`String.toLower`, `String.trim` and Node's `path.extname` are modelled by
character-list functions so that every definition evaluates by kernel
reduction.  `Char.toLower` only lowers ASCII letters; on the extension
comparisons performed by the source (against ASCII-only lists) this agrees
with JavaScript's `toLowerCase`.
-/

/-- Model of JavaScript `String.prototype.toLowerCase` as used by the source
(ASCII lowering; the source only compares against ASCII extension lists). -/
def lowerStr (s : String) : String := String.mk (s.data.map Char.toLower)

/-- Model of JavaScript `String.prototype.trim` (used by the handler's
`input.trim() === ''` validation check). -/
def trimStr (s : String) : String :=
  String.mk (((s.data.dropWhile Char.isWhitespace).reverse.dropWhile Char.isWhitespace).reverse)

/-- Drop trailing path separators, as Node's `path.extname` does. -/
def dropTrailingSlashes (cs : List Char) : List Char :=
  (cs.reverse.dropWhile (fun c => c = '/')).reverse

/-- Characters after the last path separator. -/
def lastComponent (cs : List Char) : List Char :=
  (cs.reverse.takeWhile (fun c => c ≠ '/')).reverse

/-- Model of Node `path.extname` (posix): the substring of the basename from
its last dot, or `""` when the basename has no dot, starts with its only
dot, or is exactly `".."`. -/
def extname (p : String) : String :=
  let b := lastComponent (dropTrailingSlashes p.data)
  let r := b.reverse
  let afterDot := r.takeWhile (fun c => c ≠ '.')
  match r.dropWhile (fun c => c ≠ '.') with
  | [] => ""
  | _ :: left =>
    if left = [] then ""
    else if b = ['.', '.'] then ""
    else String.mk ('.' :: afterDot.reverse)

/-! ### Request payload data model (`openai.ts`) -/

/-- One hosted-API tool descriptor, as pushed by `createResponse`.  Each
descriptor's fixed fields (container, server label, allowed tools, moderation)
are constants in the source, so a constructor per descriptor suffices. -/
inductive Tool
  | webSearch
  | codeInterpreter
  | deepWikiMcp
  | imageGeneration
deriving DecidableEq, Repr

/-- A content block inside a user message of the shaped request. -/
inductive ContentBlock
  | inputText (text : String)
  | inputImage (fileId : String)
  | inputFile (fileId : String)
deriving DecidableEq, Repr

/-- A message entry of the shaped request's `input` array. -/
structure ChatMessage where
  role : String
  content : List ContentBlock
deriving DecidableEq, Repr

/-- The `input` field of the shaped request: the raw text string (text-only
path) or a message array (attachment path). -/
inductive PayloadInput
  | rawText (s : String)
  | messages (ms : List ChatMessage)
deriving DecidableEq, Repr

/-- The `params` object assembled by `createResponse` and sent to
`openai.responses.create`.  `input` is `none` until one of the two branches
assigns it (it stays `none` on the upload-failure path). -/
structure RequestPayload where
  model : String
  previous_response_id : Option String
  tools : Option (List Tool)
  input : Option PayloadInput
deriving DecidableEq, Repr

/-- Network calls made while serving one turn, in order. -/
inductive NetCall
  | uploadCall (path : String) (bytes : Option String)
  | completionCall (params : RequestPayload)
deriving DecidableEq, Repr

/-- Environment of one `createResponse` run: the file system (path to file
bytes) and the storage upload oracle (failure, or the returned file id). -/
structure ShaperEnv where
  fileSys : String → Option String
  uploadOutcome : Except Unit String

/-- Result of one `createResponse` run: the thrown error message or the
payload that was sent to the completion endpoint, the network trace, and the
final file system. -/
structure ShaperResult where
  outcome : Except String RequestPayload
  trace : List NetCall
  finalFs : String → Option String

/-- Model of `fs.copyFileSync src dst`. -/
def copyFile (fs : String → Option String) (src dst : String) : String → Option String :=
  fun q => if q = dst then fs src else fs q

/-- Tool list built by the four sequential pushes in `createResponse`, in
source order: web search, code interpreter, deepwiki MCP, image generation. -/
def buildTools (w c d i : Bool) : List Tool :=
  (if w then [Tool.webSearch] else []) ++
  (if c then [Tool.codeInterpreter] else []) ++
  (if d then [Tool.deepWikiMcp] else []) ++
  (if i then [Tool.imageGeneration] else [])

/-- Extensions treated as images by `createResponse`. -/
def imageExts : List String := [".png", ".jpg", ".jpeg", ".gif", ".webp"]

/-- The `tools` field of the payload: attached when the built list is
non-empty, absent otherwise (`if (tools.length > 0) params.tools = tools`). -/
def toolsField (w c d i : Bool) : Option (List Tool) :=
  if (buildTools w c d i).length > 0 then some (buildTools w c d i) else none

/-- Model of `createResponse` from `src/server/openai.ts`.  Mirrors the
source: base params with model and optional previous response id; tools
attached when non-empty; on an attachment, copy the file under the original
filename's extension when that filename is known, upload, classify by
extension (original filename first, stored path as fallback) and build the
two-block message input; on upload failure throw the fixed error before any
completion call; otherwise send the params to the completion endpoint. -/
def createResponse (env : ShaperEnv) (input : String)
    (previousResponseId : Option String) (filePath : Option String)
    (originalFilename : Option String)
    (webSearchEnabled codeInterpreterEnabled deepWikiMcpEnabled imageGenerationEnabled : Bool) :
    ShaperResult :=
  let params : RequestPayload :=
    { model := "gpt-4.1"
      previous_response_id := previousResponseId
      tools := toolsField webSearchEnabled codeInterpreterEnabled
        deepWikiMcpEnabled imageGenerationEnabled
      input := none }
  match filePath with
  | some fp =>
    let staged :=
      match originalFilename with
      | some nm =>
        let tempPath := fp ++ extname nm
        (copyFile env.fileSys fp tempPath, tempPath)
      | none => (env.fileSys, fp)
    let fs1 := staged.1
    let fileToUpload := staged.2
    let upCall := NetCall.uploadCall fileToUpload (fs1 fileToUpload)
    match env.uploadOutcome with
    | .error _ =>
      { outcome := .error "Failed to upload file to OpenAI"
        trace := [upCall]
        finalFs := fs1 }
    | .ok fileId =>
      let fileToCheck := originalFilename.getD fp
      let fileExtension := lowerStr (extname fileToCheck)
      let isImage := imageExts.contains fileExtension
      let block := if isImage then ContentBlock.inputImage fileId else ContentBlock.inputFile fileId
      let msgInput : PayloadInput :=
        .messages [{ role := "user", content := [.inputText input, block] }]
      let params2 := { params with input := some msgInput }
      { outcome := .ok params2
        trace := [upCall, .completionCall params2]
        finalFs := fs1 }
  | none =>
    let params2 := { params with input := some (.rawText input) }
    { outcome := .ok params2
      trace := [.completionCall params2]
      finalFs := env.fileSys }

/-! ### Backend handler (`index.ts`, `handleResponses`) -/

/-- The uploaded file reference multer attaches to the request. -/
structure UploadedFile where
  path : String
  originalname : String
deriving DecidableEq, Repr

/-- The inbound request body.  The four toggle fields are what the client
submits; absent fields are `none`. -/
structure RequestBody where
  input : Option String
  previousResponseId : Option String
  webSearchEnabled : Option Bool
  codeInterpreterEnabled : Option Bool
  deepWikiMcpEnabled : Option Bool
  imageGenerationEnabled : Option Bool
deriving DecidableEq, Repr

/-- One inbound HTTP request: parsed body plus the optional uploaded file. -/
structure HttpRequest where
  body : RequestBody
  file : Option UploadedFile
deriving DecidableEq, Repr

/-- Observable outcome of the handler: HTTP status, the error message of the
JSON error envelope when present, and the network trace of the turn. -/
structure HandlerResult where
  status : Nat
  errorMsg : Option String
  trace : List NetCall
deriving DecidableEq, Repr

/-- Model of `handleResponses` from `src/server/index.ts`.  The source
destructures only `input` and `previousResponseId` from the body and invokes
`createResponse(input, previousResponseId, req.file?.path,
req.file?.originalname)` with no further arguments, so the four toggle
parameters are `undefined` there, i.e. falsy: they are modelled as `false`
regardless of the toggle fields submitted in the body. -/
def handleResponses (env : ShaperEnv) (req : HttpRequest) : HandlerResult :=
  match req.body.input with
  | none => { status := 400, errorMsg := some "Missing input", trace := [] }
  | some inp =>
    if trimStr inp = "" then
      { status := 400, errorMsg := some "Missing input", trace := [] }
    else
      let r := createResponse env inp req.body.previousResponseId
        (req.file.map UploadedFile.path) (req.file.map UploadedFile.originalname)
        false false false false
      match r.outcome with
      | .ok _ => { status := 200, errorMsg := none, trace := r.trace }
      | .error e => { status := 500, errorMsg := some e, trace := r.trace }

/-- The request the browser client's `sendMessage` builds when a file is
attached: the form data carries `input` set to the typed text, or to the
fallback prompt `"Please analyze this file"` when the typed text is the empty
string, plus the toggle fields as submitted. -/
def clientFileRequest (currentInput : String) (lastResponseId : Option String)
    (f : UploadedFile) (w c d i : Bool) : HttpRequest :=
  { body :=
      { input := some (if currentInput = "" then "Please analyze this file" else currentInput)
        previousResponseId := lastResponseId
        webSearchEnabled := some w
        codeInterpreterEnabled := some c
        deepWikiMcpEnabled := some d
        imageGenerationEnabled := some i }
    file := some f }

/-! ### Response reducer (`index.ts`, client `sendMessage`) -/

/-- One entry of a `message` item's `content` array; `text` absent is
modelled as `""`, which is equally falsy for the `c.text` check. -/
structure ContentPart where
  text : String
deriving DecidableEq, Repr

/-- One item of the hosted API's `output` array.  An absent `type` is
modelled as `""` (absent and `""` fail every equality test of the source
alike); an absent or non-array `content` is `none` (both fail the
`item.content && Array.isArray(item.content)` guard); absent `result` and
`output_format` are `""` (falsy). -/
structure OutputItem where
  type : String
  content : Option (List ContentPart)
  result : String
  output_format : String
deriving DecidableEq, Repr

/-- The `output` field of the hosted response: absent/falsy, truthy but not
an array, or an array of items. -/
inductive OutputVal
  | undef
  | notArray
  | arr (items : List OutputItem)
deriving DecidableEq, Repr

/-- JavaScript falsiness of the `imageUrl` variable (`undefined` or `""`). -/
def jsFalsyOpt : Option String → Bool
  | none => true
  | some s => s = ""

/-- The body of the reducer's `forEach` over the output items, acting on the
accumulated `(responseText, imageUrl)` state. -/
def reduceStep (st : String × Option String) (item : OutputItem) : String × Option String :=
  if item.type = "message" then
    match item.content with
    | some parts =>
      match parts.find? (fun c => c.text != "") with
      | some c => (st.1 ++ (if st.1 ≠ "" then "\n" else "") ++ c.text, st.2)
      | none => st
    | none => st
  else if item.type = "image_generation_call" ∧ item.result ≠ "" ∧ item.output_format ≠ "" then
    ((if st.1 = "" then "Image generated:" else st.1),
      some ("data:image/" ++ item.output_format ++ ";base64," ++ item.result))
  else st

/-- Model of the client's reduction of `data.output` into the displayed
`(responseText, imageUrl)` pair. -/
def reduceOutput (out : OutputVal) : String × Option String :=
  match out with
  | .arr items =>
    let acc := items.foldl reduceStep ("", none)
    if acc.1 = "" ∧ jsFalsyOpt acc.2 then
      ("No recognizable content received from API.", acc.2)
    else acc
  | _ => ("No output array received from API.", none)

/-! ### Closed-form description of the reducer

The following definitions restate, in closed form, what the specification
claims the scan accumulates: the first non-empty text segment of each
`message` item, newline-joined; the data URI of the last valid
image-generation item; and the default caption exactly when a valid image is
met before any text has been accumulated. -/

/-- The first non-empty text segment of a `message` item, if any. -/
def firstSeg (item : OutputItem) : Option String :=
  if item.type = "message" then
    match item.content with
    | some parts => (parts.find? (fun c => c.text != "")).map ContentPart.text
    | none => none
  else none

/-- The data URI contributed by a valid image-generation item, if any. -/
def validImageUri (item : OutputItem) : Option String :=
  if item.type = "image_generation_call" ∧ item.result ≠ "" ∧ item.output_format ≠ "" then
    some ("data:image/" ++ item.output_format ++ ";base64," ++ item.result)
  else none

/-- Text contributions of all message items, in order. -/
def msgTexts (items : List OutputItem) : List String := items.filterMap firstSeg

/-- Image contributions of all image-generation items, in order. -/
def imgUris (items : List OutputItem) : List String := items.filterMap validImageUri

/-- Last element of a list, if any. -/
def lastOf : List α → Option α
  | [] => none
  | a :: rest =>
    match lastOf rest with
    | some x => some x
    | none => some a

/-- The image accumulated after scanning `items` starting from `i0`: the last
valid image item wins, else the initial value survives. -/
def imgAfter (i0 : Option String) (items : List OutputItem) : Option String :=
  match lastOf (imgUris items) with
  | some u => some u
  | none => i0

/-- Whether the scan sets the default caption: true exactly when a valid
image item occurs before any message item that contributes text. -/
def captionFlag : List OutputItem → Bool
  | [] => false
  | item :: rest =>
    if (firstSeg item).isSome then false
    else if (validImageUri item).isSome then true
    else captionFlag rest

/-- Newline join, as the reducer produces by appending with separators. -/
def joinNL : List String → String
  | [] => ""
  | [s] => s
  | s :: t :: rest => s ++ "\n" ++ joinNL (t :: rest)

/-- The text accumulated by a full scan of `items` from empty text: the
optional default caption followed by all message contributions. -/
def textAfter (items : List OutputItem) : String :=
  joinNL ((if captionFlag items then ["Image generated:"] else []) ++ msgTexts items)

/-! ### Observation helpers used by the theorems -/

/-- The payload the shaper handed to the completion endpoint (none when the
run aborted with an error). -/
def outcomePayload (r : ShaperResult) : Option RequestPayload :=
  match r.outcome with
  | .ok pl => some pl
  | .error _ => none

/-- The content blocks of the single user message of a successful run with
an attachment. -/
def sentBlocks (r : ShaperResult) : Option (List ContentBlock) :=
  match r.outcome with
  | .ok pl =>
    match pl.input with
    | some (.messages [m]) => some m.content
    | _ => none
  | .error _ => none

/-- The payloads of the completion calls in a network trace. -/
def completionPayloads (tr : List NetCall) : List RequestPayload :=
  tr.filterMap fun c =>
    match c with
    | .completionCall pl => some pl
    | _ => none

/-- The text block of the first completion call of a trace, when its payload
is a message array whose first message starts with a text block. -/
def sentTextBlock (tr : List NetCall) : Option String :=
  match completionPayloads tr with
  | pl :: _ =>
    match pl.input with
    | some (.messages (m :: _)) =>
      match m.content with
      | ContentBlock.inputText s :: _ => some s
      | _ => none
    | _ => none
  | [] => none

/-- The toggle governing each tool descriptor. -/
def toggleOf (w c d i : Bool) : Tool → Bool
  | .webSearch => w
  | .codeInterpreter => c
  | .deepWikiMcp => d
  | .imageGeneration => i

end RApp


namespace RApp

/-! ### Helper lemmas -/

/-- A string with a non-empty left part is non-empty. -/
theorem append_ne_empty (a b : String) (h : a ≠ "") : a ++ b ≠ "" := by
  intro hc
  apply h
  have hd : a.data ++ b.data = [] := by
    have := congrArg String.data hc
    simpa using this
  exact String.ext (by simpa using (List.append_eq_nil.mp hd).1)

/-- The reducer's step in terms of the closed-form item observations. -/
theorem step_char (st : String × Option String) (item : OutputItem) :
    reduceStep st item =
      match firstSeg item with
      | some s => (st.1 ++ (if st.1 ≠ "" then "\n" else "") ++ s, st.2)
      | none =>
        match validImageUri item with
        | some u => ((if st.1 = "" then "Image generated:" else st.1), some u)
        | none => st := by
  by_cases ht : item.type = "message"
  · have himg : ¬(item.type = "image_generation_call" ∧ item.result ≠ "" ∧ item.output_format ≠ "") := by
      simp [ht]
    cases hc : item.content with
    | none => simp [reduceStep, firstSeg, validImageUri, ht, hc, himg]
    | some parts =>
      cases hfind : parts.find? (fun c => c.text != "") with
      | none => simp [reduceStep, firstSeg, validImageUri, ht, hc, hfind, himg]
      | some c => simp [reduceStep, firstSeg, validImageUri, ht, hc, hfind, himg]
  · by_cases hv : item.type = "image_generation_call" ∧ item.result ≠ "" ∧ item.output_format ≠ ""
    · simp [reduceStep, firstSeg, validImageUri, ht, hv]
    · simp [reduceStep, firstSeg, validImageUri, ht, hv]

/-- A message contribution forces the item tag to be `message`. -/
theorem firstSeg_some_type {item : OutputItem} {s : String}
    (h : firstSeg item = some s) : item.type = "message" := by
  by_cases ht : item.type = "message"
  · exact ht
  · simp [firstSeg, ht] at h

/-- An item that contributes text contributes no image. -/
theorem validImageUri_of_firstSeg {item : OutputItem} {s : String}
    (h : firstSeg item = some s) : validImageUri item = none := by
  have ht := firstSeg_some_type h
  simp [validImageUri, ht]

/-- Message contributions are non-empty (the scan keeps the first segment
whose text is truthy). -/
theorem firstSeg_ne_empty {item : OutputItem} {s : String}
    (h : firstSeg item = some s) : s ≠ "" := by
  have ht := firstSeg_some_type h
  unfold firstSeg at h
  rw [if_pos ht] at h
  cases hc : item.content with
  | none => rw [hc] at h; simp at h
  | some parts =>
    rw [hc] at h
    rcases Option.map_eq_some'.mp h with ⟨c, hfind, hcs⟩
    have := List.find?_some hfind
    simpa [hcs] using this

/-- An item with no image contribution leaves the accumulated image alone. -/
theorem imgAfter_cons_none {item : OutputItem} (h : validImageUri item = none)
    (i0 : Option String) (rest : List OutputItem) :
    imgAfter i0 (item :: rest) = imgAfter i0 rest := by
  simp [imgAfter, imgUris, List.filterMap_cons, h]

/-- An item with an image contribution replaces the accumulated image, and a
later contribution still wins. -/
theorem imgAfter_cons_some {item : OutputItem} {u : String}
    (h : validImageUri item = some u) (i0 : Option String) (rest : List OutputItem) :
    imgAfter i0 (item :: rest) = imgAfter (some u) rest := by
  simp only [imgAfter, imgUris, List.filterMap_cons, h, lastOf]
  cases hl : lastOf (List.filterMap validImageUri rest) <;> simp [hl]

/-- Joining after merging the first two entries is joining the full list. -/
theorem joinNL_glue (a b : String) (M : List String) :
    joinNL ((a ++ "\n" ++ b) :: M) = a ++ "\n" ++ joinNL (b :: M) := by
  cases M with
  | nil => simp [joinNL]
  | cons m ms => simp [joinNL, String.append_assoc]

/-- Full scan from an already non-empty accumulated text: every message
contribution is appended newline-separated, the caption is never set, and
the last image contribution wins. -/
theorem fold_from_text (items : List OutputItem) :
    ∀ (t0 : String) (i0 : Option String), t0 ≠ "" →
      items.foldl reduceStep (t0, i0) = (joinNL (t0 :: msgTexts items), imgAfter i0 items) := by
  induction items with
  | nil =>
    intro t0 i0 _
    simp [msgTexts, joinNL, imgAfter, imgUris, lastOf]
  | cons item rest ih =>
    intro t0 i0 h
    rw [List.foldl_cons, step_char]
    cases hf : firstSeg item with
    | some s =>
      rw [if_pos h]
      have hne : t0 ++ "\n" ++ s ≠ "" := append_ne_empty _ _ (append_ne_empty _ _ h)
      rw [ih (t0 ++ "\n" ++ s) i0 hne]
      rw [imgAfter_cons_none (validImageUri_of_firstSeg hf)]
      simp only [msgTexts, List.filterMap_cons, hf]
      rw [joinNL_glue]
      rfl
    | none =>
      cases hv : validImageUri item with
      | some u =>
        rw [if_neg h]
        rw [ih t0 (some u) h]
        rw [imgAfter_cons_some hv]
        simp [msgTexts, List.filterMap_cons, hf]
      | none =>
        rw [ih t0 i0 h]
        rw [imgAfter_cons_none hv]
        simp [msgTexts, List.filterMap_cons, hf]

/-- Full scan from the empty initial state: the accumulated text is the
optional caption followed by all message contributions, and the last image
contribution wins. -/
theorem fold_from_empty (items : List OutputItem) :
    ∀ i0 : Option String,
      items.foldl reduceStep ("", i0) = (textAfter items, imgAfter i0 items) := by
  induction items with
  | nil =>
    intro i0
    simp [textAfter, captionFlag, msgTexts, joinNL, imgAfter, imgUris, lastOf]
  | cons item rest ih =>
    intro i0
    rw [List.foldl_cons, step_char]
    cases hf : firstSeg item with
    | some s =>
      have hs := firstSeg_ne_empty hf
      show List.foldl reduceStep (s, i0) rest = (textAfter (item :: rest), imgAfter i0 (item :: rest))
      rw [fold_from_text rest s i0 hs]
      rw [imgAfter_cons_none (validImageUri_of_firstSeg hf)]
      have hcap : captionFlag (item :: rest) = false := by
        simp [captionFlag, hf]
      simp only [textAfter, hcap, msgTexts, List.filterMap_cons, hf]
      simp [joinNL]
    | none =>
      cases hv : validImageUri item with
      | some u =>
        have hcap : captionFlag (item :: rest) = true := by
          simp [captionFlag, hf, hv]
        show List.foldl reduceStep ("Image generated:", some u) rest
          = (textAfter (item :: rest), imgAfter i0 (item :: rest))
        rw [fold_from_text rest "Image generated:" (some u) (by decide)]
        rw [imgAfter_cons_some hv]
        simp only [textAfter, hcap, msgTexts, List.filterMap_cons, hf]
        simp [joinNL]
      | none =>
        show List.foldl reduceStep ("", i0) rest
          = (textAfter (item :: rest), imgAfter i0 (item :: rest))
        rw [ih i0]
        rw [imgAfter_cons_none hv]
        have hcap : captionFlag (item :: rest) = captionFlag rest := by
          simp [captionFlag, hf, hv]
        simp only [textAfter, hcap, msgTexts, List.filterMap_cons, hf]

end RApp

namespace RApp

/-- A scan over only unrecognized items leaves the accumulator unchanged. -/
theorem fold_unrecognized (items : List OutputItem)
    (h : ∀ item ∈ items, item.type ≠ "message" ∧ item.type ≠ "image_generation_call") :
    ∀ st : String × Option String, items.foldl reduceStep st = st := by
  induction items with
  | nil => intro st; rfl
  | cons item rest ih =>
    intro st
    have h1 := h item (List.mem_cons_self item rest)
    have hstep : reduceStep st item = st := by
      simp [reduceStep, h1.1, h1.2]
    rw [List.foldl_cons, hstep]
    exact ih (fun it hit => h it (List.mem_cons_of_mem _ hit)) st

/-! ### Claim theorems -/

/-- Claim C7: the reducer visits every item of the output array in order and
accumulates: each message item's first non-empty text segment is appended,
newline-separated; each valid image-generation item sets the inline image to
its data URI with the last one winning; the default caption is set exactly
when a valid image item is met before any accumulated text.  In particular a
single message item with text "Hello" reduces to exactly ("Hello", no image),
and a single image item with format png and payload AAAA reduces to the data
URI with the default caption. -/
theorem claim_C7_reducer_scan :
    (∀ items : List OutputItem,
      reduceOutput (.arr items)
        = (if textAfter items = "" ∧ jsFalsyOpt (imgAfter none items) then "No recognizable content received from API." else textAfter items,
           imgAfter none items)) ∧
    reduceOutput (.arr [{ type := "message", content := some [{ text := "Hello" }], result := "", output_format := "" }]) = ("Hello", none) ∧
    reduceOutput (.arr [{ type := "image_generation_call", content := none, result := "AAAA", output_format := "png" }]) = ("Image generated:", some "data:image/png;base64,AAAA") := by
  refine ⟨fun items => ?_, by decide, by decide⟩
  simp only [reduceOutput]
  rw [fold_from_empty items none]
  by_cases hP : textAfter items = "" ∧ jsFalsyOpt (imgAfter none items) <;> simp [hP]

/-- Claim C8: missing or non-array output reduces to the fixed no-output
notice, and a full scan producing neither text nor image (the empty array,
or an array of only unrecognized tags, which are ignored) reduces to the
fixed no-content notice; the reducer never fails the turn. -/
theorem claim_C8_graceful_degradation (items : List OutputItem)
    (h : ∀ item ∈ items, item.type ≠ "message" ∧ item.type ≠ "image_generation_call") :
    reduceOutput .undef = ("No output array received from API.", none) ∧
    reduceOutput .notArray = ("No output array received from API.", none) ∧
    reduceOutput (.arr []) = ("No recognizable content received from API.", none) ∧
    reduceOutput (.arr items) = ("No recognizable content received from API.", none) := by
  refine ⟨rfl, rfl, by decide, ?_⟩
  simp only [reduceOutput]
  rw [fold_unrecognized items h ("", none)]
  simp [jsFalsyOpt]

/-- Witness for C8 at a concrete array of two unrecognized items. -/
theorem claim_C8_graceful_degradation_witness :
    (∀ item ∈ ([{ type := "banana", content := none, result := "", output_format := "" }, { type := "", content := some [{ text := "x" }], result := "Q", output_format := "png" }] : List OutputItem), item.type ≠ "message" ∧ item.type ≠ "image_generation_call") ∧
    (reduceOutput .undef = ("No output array received from API.", none) ∧
     reduceOutput .notArray = ("No output array received from API.", none) ∧
     reduceOutput (.arr []) = ("No recognizable content received from API.", none) ∧
     reduceOutput (.arr [{ type := "banana", content := none, result := "", output_format := "" }, { type := "", content := some [{ text := "x" }], result := "Q", output_format := "png" }]) = ("No recognizable content received from API.", none)) :=
  ⟨by decide, claim_C8_graceful_degradation _ (by decide)⟩

end RApp

namespace RApp

/-- Any payload a shaper run hands to the completion endpoint carries the
tools field built from the four toggles. -/
theorem outcome_tools (env : ShaperEnv) (inp : String) (pid fp nm : Option String)
    (w c d i : Bool) (p : RequestPayload)
    (h : (createResponse env inp pid fp nm w c d i).outcome = .ok p) :
    p.tools = toolsField w c d i := by
  cases fp with
  | none =>
    simp only [createResponse] at h
    rw [← (Except.ok.injEq _ _).mp h]
  | some q =>
    cases hu : env.uploadOutcome with
    | error e => simp [createResponse, hu] at h
    | ok fid =>
      cases nm with
      | none =>
        simp only [createResponse, hu] at h
        rw [← (Except.ok.injEq _ _).mp h]
      | some n =>
        simp only [createResponse, hu] at h
        rw [← (Except.ok.injEq _ _).mp h]

/-- Claim C1: for every combination of the four toggles, the shaped payload's
tool list is exactly the descriptors of the true toggles, in the fixed order
web-search, code-execution, documentation-retrieval, image-generation, and
the tools field is absent exactly when all four toggles are false. -/
theorem claim_C1_tools_exact (env : ShaperEnv) (inp : String) (pid fp nm : Option String)
    (w c d i : Bool) (p : RequestPayload)
    (h : (createResponse env inp pid fp nm w c d i).outcome = .ok p) :
    p.tools = (if w = false ∧ c = false ∧ d = false ∧ i = false then none else some ([Tool.webSearch, Tool.codeInterpreter, Tool.deepWikiMcp, Tool.imageGeneration].filter (toggleOf w c d i))) := by
  rw [outcome_tools env inp pid fp nm w c d i p h]
  cases w <;> cases c <;> cases d <;> cases i <;> rfl

/-- Witness for C1 at a concrete text-only run with three toggles true. -/
theorem claim_C1_tools_exact_witness :
    (createResponse ⟨fun _ => none, .ok "fid-1"⟩ "question" (some "resp-0") none none true true false true).outcome = .ok { model := "gpt-4.1", previous_response_id := some "resp-0", tools := some [Tool.webSearch, Tool.codeInterpreter, Tool.imageGeneration], input := some (.rawText "question") } ∧
    ({ model := "gpt-4.1", previous_response_id := some "resp-0", tools := some [Tool.webSearch, Tool.codeInterpreter, Tool.imageGeneration], input := some (.rawText "question") } : RequestPayload).tools = (if (true : Bool) = false ∧ (true : Bool) = false ∧ (false : Bool) = false ∧ (true : Bool) = false then none else some ([Tool.webSearch, Tool.codeInterpreter, Tool.deepWikiMcp, Tool.imageGeneration].filter (toggleOf true true false true))) :=
  ⟨rfl, claim_C1_tools_exact ⟨fun _ => none, .ok "fid-1"⟩ "question" (some "resp-0") none none true true false true _ rfl⟩

/-- Claim C2 (evaluated at the failing input): the handler drops the four
toggle fields of the inbound body — it invokes the shaper without them — so
even with every toggle submitted as true the payload sent to the completion
endpoint has no tools field. -/
theorem claim_C2_toggles_dropped :
    handleResponses ⟨fun _ => none, .ok "file-1"⟩ { body := { input := some "hi", previousResponseId := none, webSearchEnabled := some true, codeInterpreterEnabled := some true, deepWikiMcpEnabled := some true, imageGenerationEnabled := some true }, file := none } = { status := 200, errorMsg := none, trace := [NetCall.completionCall { model := "gpt-4.1", previous_response_id := none, tools := none, input := some (.rawText "hi") }] } := rfl

/-- Claim C3: with an attachment, the reference block of the shaped message
is tagged input_image exactly when the extension of the original filename
(stored path when no original filename), lowercased, is one of png, jpg,
jpeg, gif, webp, and input_file otherwise; either way it carries the file id
returned by the upload. -/
theorem claim_C3_extension_classification (fs : String → Option String) (fid inp : String)
    (pid : Option String) (p : String) (nm : Option String) (w c d i : Bool) :
    sentBlocks (createResponse ⟨fs, .ok fid⟩ inp pid (some p) nm w c d i)
      = some [ContentBlock.inputText inp, if imageExts.contains (lowerStr (extname (nm.getD p))) then ContentBlock.inputImage fid else ContentBlock.inputFile fid] := by
  cases nm <;> rfl

end RApp

namespace RApp

/-- Claim C4 counterexample: at a concrete turn with empty text and an
attachment, the shaped text block is not the lowercase string quoted by the
claim — the client substitutes "Please analyze this file" (capital P). -/
theorem claim_C4_counterexample :
    sentTextBlock (handleResponses ⟨fun _ => some "PDFBYTES", .ok "fid-2"⟩ (clientFileRequest "" none ⟨"uploads/t1", "report.pdf"⟩ false false false false)).trace ≠ some "please analyze this file" ∧
    sentTextBlock (handleResponses ⟨fun _ => some "PDFBYTES", .ok "fid-2"⟩ (clientFileRequest "" none ⟨"uploads/t1", "report.pdf"⟩ false false false false)).trace = some "Please analyze this file" :=
  ⟨by decide, rfl⟩

/-- Claim C4 (amended): for every turn submitted with empty text and a
present attachment (and a successful upload), the text block of the shaped
message is the fallback prompt "Please analyze this file" — substituted by
the client before submission — not an empty string, and the turn is not
rejected. -/
theorem claim_C4_fallback_prompt (fs : String → Option String) (fid : String)
    (pid : Option String) (f : UploadedFile) (w c d i : Bool) :
    (handleResponses ⟨fs, .ok fid⟩ (clientFileRequest "" pid f w c d i)).status = 200 ∧
    sentTextBlock (handleResponses ⟨fs, .ok fid⟩ (clientFileRequest "" pid f w c d i)).trace = some "Please analyze this file" ∧
    "Please analyze this file" ≠ ("" : String) :=
  ⟨rfl, rfl, by decide⟩

/-- Claim C5: a turn whose text is absent or trims to empty, with no
attachment, is rejected with HTTP 400 "Missing input" and an empty network
trace: neither the storage upload nor the completion call happens. -/
theorem claim_C5_empty_turn_rejected (env : ShaperEnv) (body : RequestBody)
    (h : trimStr (body.input.getD "") = "") :
    handleResponses env { body := body, file := none }
      = { status := 400, errorMsg := some "Missing input", trace := [] } := by
  cases hb : body.input with
  | none => simp [handleResponses, hb]
  | some s =>
    have hs : trimStr s = "" := by rw [hb] at h; simpa using h
    simp [handleResponses, hb, hs]

/-- Witness for C5 at a concrete empty submission. -/
theorem claim_C5_empty_turn_rejected_witness :
    trimStr (({ input := none, previousResponseId := none, webSearchEnabled := none, codeInterpreterEnabled := none, deepWikiMcpEnabled := none, imageGenerationEnabled := none } : RequestBody).input.getD "") = "" ∧
    handleResponses ⟨fun _ => none, .error ()⟩ { body := { input := none, previousResponseId := none, webSearchEnabled := none, codeInterpreterEnabled := none, deepWikiMcpEnabled := none, imageGenerationEnabled := none }, file := none } = { status := 400, errorMsg := some "Missing input", trace := [] } :=
  ⟨rfl, claim_C5_empty_turn_rejected ⟨fun _ => none, .error ()⟩ { input := none, previousResponseId := none, webSearchEnabled := none, codeInterpreterEnabled := none, deepWikiMcpEnabled := none, imageGenerationEnabled := none } rfl⟩

/-- Claim C6: when the storage upload fails, the shaper aborts with the
fixed error "Failed to upload file to OpenAI" and its trace is exactly one
upload attempt — no completion call, no retry. -/
theorem claim_C6_upload_failure (fs : String → Option String) (inp : String)
    (pid : Option String) (p : String) (nm : Option String) (w c d i : Bool) :
    (createResponse ⟨fs, .error ()⟩ inp pid (some p) nm w c d i).outcome
      = Except.error "Failed to upload file to OpenAI" ∧
    ∃ q b, (createResponse ⟨fs, .error ()⟩ inp pid (some p) nm w c d i).trace
      = [NetCall.uploadCall q b] := by
  cases nm with
  | none => exact ⟨rfl, p, fs p, rfl⟩
  | some n => exact ⟨rfl, p ++ extname n, copyFile fs p (p ++ extname n) (p ++ extname n), rfl⟩

/-- Claim C9: with an attachment and a known original filename, the shaper
stages a copy of the file bytes at the stored path extended by the original
filename's extension, uploads exactly that copy (same path, same bytes), and
the original file at the stored path is neither mutated nor deleted. -/
theorem claim_C9_copy_for_upload (fs : String → Option String) (fid inp : String)
    (pid : Option String) (p nm : String) (w c d i : Bool) :
    (createResponse ⟨fs, .ok fid⟩ inp pid (some p) (some nm) w c d i).finalFs (p ++ extname nm) = fs p ∧
    (createResponse ⟨fs, .ok fid⟩ inp pid (some p) (some nm) w c d i).finalFs p = fs p ∧
    (createResponse ⟨fs, .ok fid⟩ inp pid (some p) (some nm) w c d i).trace.head?
      = some (NetCall.uploadCall (p ++ extname nm) (fs p)) := by
  refine ⟨?_, ?_, ?_⟩
  · show copyFile fs p (p ++ extname nm) (p ++ extname nm) = fs p
    simp [copyFile]
  · show copyFile fs p (p ++ extname nm) p = fs p
    simp only [copyFile, ite_self]
  · show some (NetCall.uploadCall (p ++ extname nm) (copyFile fs p (p ++ extname nm) (p ++ extname nm))) = some (NetCall.uploadCall (p ++ extname nm) (fs p))
    simp [copyFile]

/-- Claim C10: the handler's validation tests the trimmed text — absent,
empty, or all-whitespace input is rejected with HTTP 400 "Missing input",
regardless of attachment presence. -/
theorem claim_C10_trimmed_validation (env : ShaperEnv) (req : HttpRequest)
    (h : trimStr (req.body.input.getD "") = "") :
    handleResponses env req = { status := 400, errorMsg := some "Missing input", trace := [] } := by
  cases hb : req.body.input with
  | none => simp [handleResponses, hb]
  | some s =>
    have hs : trimStr s = "" := by rw [hb] at h; simpa using h
    simp [handleResponses, hb, hs]

/-- Witness for C10 at a whitespace-only input with an attachment present. -/
theorem claim_C10_trimmed_validation_witness :
    trimStr (({ body := { input := some " \t ", previousResponseId := none, webSearchEnabled := some true, codeInterpreterEnabled := none, deepWikiMcpEnabled := none, imageGenerationEnabled := none }, file := some ⟨"uploads/w1", "a.png"⟩ } : HttpRequest).body.input.getD "") = "" ∧
    handleResponses ⟨fun _ => some "B", .ok "fid-3"⟩ { body := { input := some " \t ", previousResponseId := none, webSearchEnabled := some true, codeInterpreterEnabled := none, deepWikiMcpEnabled := none, imageGenerationEnabled := none }, file := some ⟨"uploads/w1", "a.png"⟩ } = { status := 400, errorMsg := some "Missing input", trace := [] } :=
  ⟨by decide, claim_C10_trimmed_validation ⟨fun _ => some "B", .ok "fid-3"⟩ { body := { input := some " \t ", previousResponseId := none, webSearchEnabled := some true, codeInterpreterEnabled := none, deepWikiMcpEnabled := none, imageGenerationEnabled := none }, file := some ⟨"uploads/w1", "a.png"⟩ } (by decide)⟩

end RApp
